import Mathlib

/-!
Shallow embedding of the scheduling/execution core of the
`telegram-auto-checkin` repository (Go), covering:

* the configuration data model and merge logic (package `config`,
  `src/unnamed/part_000`);
* reply-policy resolution and schedule registration
  (`src/internal/scheduler/scheduler.go`);
* the bounded task queue and worker dispatch
  (`src/internal/executor/executor.go`).

Go pointers to structs are modelled as `Option`, Go `error` results as
`Except String`, Go machine integers as `Int` (all values involved are
small configuration numbers; no overflow is reachable), and the zerolog
side-effecting log calls as explicit lists of `LogEvent` values returned
alongside results.
-/

namespace Checkin

/-- `LogConfig` from `src/unnamed/part_000` lines 23-27. -/
structure LogConfig where
  dir : String
  level : String
  format : String
  deriving DecidableEq, Repr

/-- `TaskConfig` from `src/unnamed/part_000` lines 42-52.
`Enabled *bool` becomes `Option Bool`. -/
structure TaskConfig where
  name : String
  target : String
  method : String
  payload : String
  schedule : String
  enabled : Option Bool
  runOnStart : Bool
  replyWaitSeconds : Int
  replyHistoryLimit : Int
  deriving DecidableEq, Repr

/-- `AccountConfig` from `src/unnamed/part_000` lines 29-40. -/
structure AccountConfig where
  name : String
  phone : String
  password : String
  appID : Int
  appHash : String
  workerCount : Int
  taskQueueSize : Int
  replyWaitSeconds : Int
  replyHistoryLimit : Int
  tasks : List TaskConfig
  deriving DecidableEq, Repr

/-- `Config` from `src/unnamed/part_000` lines 12-21. -/
structure Config where
  accounts : List AccountConfig
  proxy : String
  appID : Int
  appHash : String
  replyWaitSeconds : Int
  replyHistoryLimit : Int
  log : LogConfig
  language : String
  deriving DecidableEq, Repr

/-- `mergeTask` from `src/unnamed/part_000` lines 266-287: sparse override
of `Target`, `Method`, `Payload`, `Schedule`, pointer-presence override of
`Enabled`, or-semantics for `RunOnStart`; all other fields copied from
`base` by the initial `merged := base`. -/
def mergeTask (base override : TaskConfig) : TaskConfig :=
  { base with
    target := if override.target ≠ "" then override.target else base.target
    method := if override.method ≠ "" then override.method else base.method
    payload := if override.payload ≠ "" then override.payload else base.payload
    schedule := if override.schedule ≠ "" then override.schedule else base.schedule
    enabled := if override.enabled.isSome then override.enabled else base.enabled
    runOnStart := if override.runOnStart then true else base.runOnStart }

/-- `mergeTasks` from `src/unnamed/part_000` lines 234-264: positional merge
padded with whichever side is longer (an unpaired element is kept as is). -/
def mergeTasks : List TaskConfig → List TaskConfig → List TaskConfig
  | [], [] => []
  | b :: bs, [] => b :: mergeTasks bs []
  | [], o :: os => o :: mergeTasks [] os
  | b :: bs, o :: os => mergeTask b o :: mergeTasks bs os

/-- `mergeAccount` from `src/unnamed/part_000` lines 138-159: sparse override
of `Name`, `Phone`, `Password`, `AppID`, `AppHash`; task lists merged only
when the override has any tasks; all other fields copied from `base`. -/
def mergeAccount (base override : AccountConfig) : AccountConfig :=
  { base with
    name := if override.name ≠ "" then override.name else base.name
    phone := if override.phone ≠ "" then override.phone else base.phone
    password := if override.password ≠ "" then override.password else base.password
    appID := if override.appID ≠ 0 then override.appID else base.appID
    appHash := if override.appHash ≠ "" then override.appHash else base.appHash
    tasks := if override.tasks.isEmpty then base.tasks
             else mergeTasks base.tasks override.tasks }

/-- Go's `strings.TrimSpace`: drop leading and trailing whitespace.
Implemented structurally (rather than via `String.trim`, whose
well-founded recursion does not evaluate in the kernel); covers the ASCII
whitespace characters relevant to configuration names. -/
def trimSpace (s : String) : String :=
  String.mk (((s.data.dropWhile Char.isWhitespace).reverse.dropWhile
    Char.isWhitespace).reverse)

/-- `allAccountsNamed` from `src/unnamed/part_000` lines 161-171: an empty
list counts as not-all-named. -/
def allAccountsNamed (accounts : List AccountConfig) : Bool :=
  if accounts.isEmpty then false
  else accounts.all (fun acc => trimSpace acc.name != "")

/-- Lookup in the Go map `overrideIndex` of `mergeAccountsByName`
(`src/unnamed/part_000` lines 174-177): the map is built by iterating the
override list in order, so a later entry with the same trimmed name wins;
hence lookup returns the last matching override account. -/
def lookupByName (override : List AccountConfig) (key : String) : Option AccountConfig :=
  override.reverse.find? (fun acc => trimSpace acc.name == key)

/-- `mergeAccountsByName` from `src/unnamed/part_000` lines 173-200: each
base account is merged with the override of the same trimmed name when one
exists; afterwards every override account whose trimmed name is marked
`seen` is skipped and the rest are appended.  A key is in `seen` exactly
when some base account carries that trimmed name (every override key is in
the index, so the membership test in the first loop always succeeds for
base names present in the override), which the append filter reflects. -/
def mergeAccountsByName (base override : List AccountConfig) : List AccountConfig :=
  let mergedBase := base.map (fun acc =>
    match lookupByName override (trimSpace acc.name) with
    | some over => mergeAccount acc over
    | none => acc)
  let appended := override.filter (fun acc =>
    !(base.any (fun b => trimSpace b.name == trimSpace acc.name)))
  mergedBase ++ appended

/-- `mergeAccountsByIndex` from `src/unnamed/part_000` lines 202-232:
positional merge padded with whichever side is longer. -/
def mergeAccountsByIndex : List AccountConfig → List AccountConfig → List AccountConfig
  | [], [] => []
  | b :: bs, [] => b :: mergeAccountsByIndex bs []
  | [], o :: os => o :: mergeAccountsByIndex [] os
  | b :: bs, o :: os => mergeAccount b o :: mergeAccountsByIndex bs os

/-- `mergeAccounts` from `src/unnamed/part_000` lines 125-136. -/
def mergeAccounts (base override : List AccountConfig) : Except String (List AccountConfig) :=
  if override.isEmpty then .ok base
  else if allAccountsNamed base && allAccountsNamed override then
    .ok (mergeAccountsByName base override)
  else if base.length ≠ override.length then
    .error ("accounts length mismatch: base=" ++ toString base.length
            ++ " override=" ++ toString override.length)
  else .ok (mergeAccountsByIndex base override)

/-- `MergeConfig` from `src/unnamed/part_000` lines 95-123.  The two `*Config`
arguments are `Option Config`; a `nil` side returns the other pointer
unchanged.  `merged := *base` copies every field; only `Proxy`, `AppID`,
`AppHash` and (when the override has any) `Accounts` are then overridden. -/
def MergeConfig : Option Config → Option Config → Except String (Option Config)
  | none, override => .ok override
  | some base, none => .ok (some base)
  | some base, some override =>
    let merged : Config :=
      { base with
        proxy := if override.proxy ≠ "" then override.proxy else base.proxy
        appID := if override.appID ≠ 0 then override.appID else base.appID
        appHash := if override.appHash ≠ "" then override.appHash else base.appHash }
    if override.accounts.isEmpty then .ok (some merged)
    else
      match mergeAccounts base.accounts override.accounts with
      | .error e => .error e
      | .ok accounts => .ok (some { merged with accounts := accounts })

/-- `isTaskEnabled` from `src/internal/scheduler/scheduler.go` lines 53-58. -/
def isTaskEnabled (task : TaskConfig) : Bool :=
  match task.enabled with
  | none => true
  | some b => b

/-- `resolveReplyConfig` from `src/internal/scheduler/scheduler.go` lines
348-378: defaults 3 and 10, then global, account and task values overwrite
in that order, each only when strictly positive. -/
def resolveReplyConfig (cfg : Config) (acc : AccountConfig) (task : TaskConfig) : Int × Int :=
  let replyWaitSeconds : Int := 3
  let replyHistoryLimit : Int := 10
  let replyWaitSeconds := if cfg.replyWaitSeconds > 0 then cfg.replyWaitSeconds else replyWaitSeconds
  let replyHistoryLimit := if cfg.replyHistoryLimit > 0 then cfg.replyHistoryLimit else replyHistoryLimit
  let replyWaitSeconds := if acc.replyWaitSeconds > 0 then acc.replyWaitSeconds else replyWaitSeconds
  let replyHistoryLimit := if acc.replyHistoryLimit > 0 then acc.replyHistoryLimit else replyHistoryLimit
  let replyWaitSeconds := if task.replyWaitSeconds > 0 then task.replyWaitSeconds else replyWaitSeconds
  let replyHistoryLimit := if task.replyHistoryLimit > 0 then task.replyHistoryLimit else replyHistoryLimit
  (replyWaitSeconds, replyHistoryLimit)

/-- Claim C1: `resolveReplyConfig` returns, independently for the
wait-seconds and history-limit fields, the task-level value when it is
positive, else the account-level value when positive, else the global value
when positive, else the fixed defaults 3 and 10. -/
theorem resolveReplyConfig_precedence (cfg : Config) (acc : AccountConfig) (task : TaskConfig) :
    resolveReplyConfig cfg acc task =
      ((if task.replyWaitSeconds > 0 then task.replyWaitSeconds
        else if acc.replyWaitSeconds > 0 then acc.replyWaitSeconds
        else if cfg.replyWaitSeconds > 0 then cfg.replyWaitSeconds
        else 3),
       (if task.replyHistoryLimit > 0 then task.replyHistoryLimit
        else if acc.replyHistoryLimit > 0 then acc.replyHistoryLimit
        else if cfg.replyHistoryLimit > 0 then cfg.replyHistoryLimit
        else 10)) := by
  simp only [resolveReplyConfig]

/-- `TaskRequest` from `src/internal/executor/executor.go` lines 24-29,
without the zerolog `Logger` handle (pure log context, no data).  `WorkerID`
is zero at enqueue time and assigned at dequeue. -/
structure TaskRequest where
  task : TaskConfig
  triggerType : String
  workerID : Int
  deriving DecidableEq, Repr

/-- Observable log events emitted by the modelled code paths: the
queue-full warning of `SubmitTask` (executor.go line 226) and the
failed-`AddTask` error of the registration loop (scheduler.go line 308). -/
inductive LogEvent where
  | queueFullDropped (taskName : String)
  | scheduleAddFailed (schedule : String)
  deriving DecidableEq, Repr

/-- State of a `TaskExecutor` (`src/internal/executor/executor.go` lines
32-43): the buffered channel `taskQueue` becomes a list plus its capacity;
goroutine/ctx plumbing carries no data and is omitted. -/
structure TaskExecutor where
  workerCount : Int
  queueCapacity : Int
  queue : List TaskRequest
  logFormat : String
  logDir : String
  accountName : String
  deriving DecidableEq, Repr

/-- `NewTaskExecutor` from `src/internal/executor/executor.go` lines 46-70:
non-positive worker count becomes 4, non-positive queue size becomes 100,
empty log format becomes "text"; construction never fails. -/
def NewTaskExecutor (workerCount queueSize : Int) (logDir logFormat accountName : String) :
    TaskExecutor :=
  let workerCount := if workerCount ≤ 0 then 4 else workerCount
  let queueSize := if queueSize ≤ 0 then 100 else queueSize
  let logFormat := if logFormat = "" then "text" else logFormat
  { workerCount := workerCount
    queueCapacity := queueSize
    queue := []
    logFormat := logFormat
    logDir := logDir
    accountName := accountName }

/-- `SubmitTask` from `src/internal/executor/executor.go` lines 221-229:
the `select` with a `default` arm sends on the buffered channel exactly when
it has free capacity; otherwise it returns `false` at once and logs the
queue-full warning with the task's name. -/
def SubmitTask (e : TaskExecutor) (task : TaskConfig) (triggerType : String) :
    TaskExecutor × Bool × List LogEvent :=
  if (e.queue.length : Int) < e.queueCapacity then
    ({ e with queue := e.queue ++ [{ task := task, triggerType := triggerType, workerID := 0 }] },
     true, [])
  else
    (e, false, [.queueFullDropped task.name])

/-- A sequence of `SubmitTask` calls with no draining in between, returning
the final executor state, the per-call results in order, and the emitted
log events in order. -/
def submitAll (triggerType : String) : TaskExecutor → List TaskConfig →
    TaskExecutor × List Bool × List LogEvent
  | e, [] => (e, [], [])
  | e, t :: ts =>
    let r := SubmitTask e t triggerType
    let rest := submitAll triggerType r.1 ts
    (rest.1, r.2.1 :: rest.2.1, r.2.2 ++ rest.2.2)

/-- Claim C7: for every worker-count and queue-size argument, construction
succeeds (the constructor is total) and yields worker count and queue
capacity that are at least 1: a non-positive worker count is replaced by 4,
a non-positive queue size by 100, and positive inputs are kept as given. -/
theorem newTaskExecutor_normalizes (workerCount queueSize : Int)
    (logDir logFormat accountName : String) :
    (NewTaskExecutor workerCount queueSize logDir logFormat accountName).workerCount
        = (if workerCount ≤ 0 then 4 else workerCount) ∧
      (NewTaskExecutor workerCount queueSize logDir logFormat accountName).queueCapacity
        = (if queueSize ≤ 0 then 100 else queueSize) ∧
      1 ≤ (NewTaskExecutor workerCount queueSize logDir logFormat accountName).workerCount ∧
      1 ≤ (NewTaskExecutor workerCount queueSize logDir logFormat accountName).queueCapacity := by
  refine ⟨rfl, rfl, ?_, ?_⟩ <;> simp only [NewTaskExecutor] <;> split_ifs <;> omega

theorem submitTask_full (e : TaskExecutor) (task : TaskConfig) (triggerType : String)
    (h : e.queueCapacity ≤ (e.queue.length : Int)) :
    SubmitTask e task triggerType = (e, false, [.queueFullDropped task.name]) := by
  simp only [SubmitTask]
  rw [if_neg (not_lt.mpr h)]

theorem submitAll_fills (triggerType : String) :
    ∀ (ts : List TaskConfig) (e : TaskExecutor),
      (e.queue.length : Int) + ts.length ≤ e.queueCapacity →
      (submitAll triggerType e ts).2.1 = List.replicate ts.length true ∧
        (submitAll triggerType e ts).2.2 = [] ∧
        (submitAll triggerType e ts).1.queue.length = e.queue.length + ts.length ∧
        (submitAll triggerType e ts).1.queueCapacity = e.queueCapacity := by
  intro ts
  induction ts with
  | nil => intro e h; simp [submitAll]
  | cons t ts ih =>
    intro e h
    have hlt : (e.queue.length : Int) < e.queueCapacity := by
      simp only [List.length_cons] at h
      push_cast at h
      omega
    simp only [submitAll, SubmitTask, if_pos hlt]
    obtain ⟨h1, h2, h3, h4⟩ := ih
      { e with queue := e.queue ++ [{ task := t, triggerType := triggerType, workerID := 0 }] }
      (by
        have hq : (e.queue
            ++ [({ task := t, triggerType := triggerType, workerID := 0 } : TaskRequest)]).length
            = e.queue.length + 1 := by simp
        simp only [hq]
        simp only [List.length_cons] at h
        push_cast at h ⊢
        omega)
    simp only [List.length_append, List.length_singleton] at h3
    refine ⟨by simp [h1, List.replicate_succ], by simp [h2], by simp [h3]; omega, h4⟩

theorem submitAll_append (triggerType : String) :
    ∀ (xs ys : List TaskConfig) (e : TaskExecutor),
      submitAll triggerType e (xs ++ ys) =
        ((submitAll triggerType (submitAll triggerType e xs).1 ys).1,
         (submitAll triggerType e xs).2.1
           ++ (submitAll triggerType (submitAll triggerType e xs).1 ys).2.1,
         (submitAll triggerType e xs).2.2
           ++ (submitAll triggerType (submitAll triggerType e xs).1 ys).2.2) := by
  intro xs
  induction xs with
  | nil => intro ys e; simp [submitAll]
  | cons x xs ih => intro ys e; simp [submitAll, ih]

/-- Claim C4: `SubmitTask` never blocks the caller: on an executor whose
queue is full it returns `false` immediately (leaving the state unchanged)
and logs a warning naming the dropped task; and starting from a fresh
executor of queue capacity `C`, submitting `C + 1` tasks with no draining
yields `true` for the first `C` submissions and `false` for exactly the
last one, with one queue-full event naming that dropped task. -/
theorem submitTask_queue_full_drops (C : Nat) (ts : List TaskConfig) (t task : TaskConfig)
    (e : TaskExecutor) (tt triggerType logDir logFormat accountName : String)
    (hfull : e.queueCapacity ≤ (e.queue.length : Int)) (hC : 1 ≤ C) (hlen : ts.length = C) :
    SubmitTask e task tt = (e, false, [.queueFullDropped task.name]) ∧
      (submitAll triggerType (NewTaskExecutor 4 (C : Int) logDir logFormat accountName)
          (ts ++ [t])).2.1 = List.replicate C true ++ [false] ∧
      (submitAll triggerType (NewTaskExecutor 4 (C : Int) logDir logFormat accountName)
          (ts ++ [t])).2.2 = [.queueFullDropped t.name] ∧
      ((submitAll triggerType (NewTaskExecutor 4 (C : Int) logDir logFormat accountName)
          (ts ++ [t])).2.1.count false = 1) := by
  have hcapBase : (NewTaskExecutor 4 (C : Int) logDir logFormat accountName).queueCapacity
      = (C : Int) := by
    simp only [NewTaskExecutor]
    rw [if_neg (by omega)]
  have hqBase : (NewTaskExecutor 4 (C : Int) logDir logFormat accountName).queue = [] := rfl
  obtain ⟨h1, h2, h3, h4⟩ := submitAll_fills triggerType ts
    (NewTaskExecutor 4 (C : Int) logDir logFormat accountName)
    (by rw [hcapBase, hqBase, hlen]; simp)
  have hfull2 : (submitAll triggerType (NewTaskExecutor 4 (C : Int) logDir logFormat accountName)
      ts).1.queueCapacity ≤
      ((submitAll triggerType (NewTaskExecutor 4 (C : Int) logDir logFormat accountName)
      ts).1.queue.length : Int) := by
    rw [h3, h4, hqBase, hcapBase, hlen]
    simp
  have hlast := submitTask_full _ t triggerType hfull2
  rw [submitAll_append]
  refine ⟨submitTask_full e task tt hfull, ?_, ?_, ?_⟩ <;>
    simp [submitAll, hlast, h1, h2, hlen, List.count_append, List.count_replicate]

/-- A minimal concrete task used by the C4 witness. -/
def taskDrop : TaskConfig :=
  { name := "d", target := "", method := "", payload := "", schedule := "",
    enabled := none, runOnStart := false, replyWaitSeconds := 0, replyHistoryLimit := 0 }

/-- A concrete single-slot executor whose queue is already full. -/
def fullExec : TaskExecutor :=
  { workerCount := 1, queueCapacity := 1,
    queue := [{ task := taskDrop, triggerType := "once", workerID := 0 }],
    logFormat := "text", logDir := "", accountName := "a" }

/-- Witness for C4 at concrete inputs: a single-slot executor that is
already full drops a submission, and a fresh capacity-2 executor accepts
two submissions and drops the third. -/
theorem submitTask_queue_full_drops_witness :
    SubmitTask fullExec taskDrop "scheduled" =
      (fullExec, false, [.queueFullDropped taskDrop.name]) ∧
      (submitAll "scheduled" (NewTaskExecutor 4 ((2 : Nat) : Int) "" "text" "a")
          ([taskDrop, taskDrop] ++ [taskDrop])).2.1 = List.replicate 2 true ++ [false] ∧
      (submitAll "scheduled" (NewTaskExecutor 4 ((2 : Nat) : Int) "" "text" "a")
          ([taskDrop, taskDrop] ++ [taskDrop])).2.2 = [.queueFullDropped taskDrop.name] ∧
      ((submitAll "scheduled" (NewTaskExecutor 4 ((2 : Nat) : Int) "" "text" "a")
          ([taskDrop, taskDrop] ++ [taskDrop])).2.1.count false = 1) :=
  submitTask_queue_full_drops 2 [taskDrop, taskDrop] taskDrop taskDrop fullExec
    "scheduled" "scheduled" "" "text" "a" (by decide) (by decide) (by decide)

/-- A schedule entry held by the cron engine: one schedule expression bound
to the captured task snapshot (`s.AddTask(t.Schedule, func() ...)` in
`src/internal/scheduler/scheduler.go` lines 297-305). -/
structure ScheduleEntry where
  schedule : String
  task : TaskConfig
  deriving DecidableEq, Repr

/-- The scheduled-task registration loop of `RunTasks`
(`src/internal/scheduler/scheduler.go` lines 286-313), for one account.
`valid` abstracts the external cron parser: `valid s = true` means
`cron.AddFunc` accepts expression `s`.  Disabled tasks and tasks with an
empty schedule are skipped; a successfully parsed schedule adds an entry;
on a parse failure the loop logs the error and returns it (`return err` at
line 309), so tasks after the failing one are not examined and the entries
added before the failure remain registered. -/
def addSchedules (valid : String → Bool) : List TaskConfig → List ScheduleEntry × Option String
  | [] => ([], none)
  | task :: rest =>
    if !isTaskEnabled task || task.schedule == "" then addSchedules valid rest
    else if valid task.schedule then
      let r := addSchedules valid rest
      ({ schedule := task.schedule, task := task } :: r.1, r.2)
    else
      ([], some task.schedule)

/-- The run-on-start submission loop of `RunTasks`
(`src/internal/scheduler/scheduler.go` lines 276-282): the tasks submitted
with trigger type `run_on_start`, in configuration order.  The surrounding
`if hasImmediateTasks` guard is redundant for this value: when no enabled
task has the flag the filter is empty. -/
def runOnStartTasks (acc : AccountConfig) : List TaskConfig :=
  acc.tasks.filter (fun task => isTaskEnabled task && task.runOnStart)

/-- The submission loop of `runTasksOnce`
(`src/internal/scheduler/scheduler.go` lines 168-177): every enabled task
is submitted (blocking) with trigger type `once`; disabled tasks are
skipped by the `continue`. -/
def onceSubmittedTasks (acc : AccountConfig) : List TaskConfig :=
  acc.tasks.filter (fun task => isTaskEnabled task)

/-- Result of registering one account in daemon mode (`RunTasks`): the
run-on-start submissions, the schedule entries added to the shared cron,
and the error the session function returned on the first malformed
schedule, if any.  Paths that skip the account early (no runnable tasks,
missing app credentials, client construction failure) register and submit
nothing, so this models the maximal path. -/
structure AccountRegistration where
  submittedOnStart : List TaskConfig
  entries : List ScheduleEntry
  scheduleErr : Option String
  deriving DecidableEq, Repr

/-- Per-account registration in `RunTasks` (`src/internal/scheduler/scheduler.go`
lines 254-319): run-on-start submission happens before schedule
registration. -/
def registerAccount (valid : String → Bool) (acc : AccountConfig) : AccountRegistration :=
  let r := addSchedules valid acc.tasks
  { submittedOnStart := runOnStartTasks acc
    entries := r.1
    scheduleErr := r.2 }

theorem addSchedules_entries_enabled (valid : String → Bool) :
    ∀ (ts : List TaskConfig), ∀ e ∈ (addSchedules valid ts).1,
      isTaskEnabled e.task = true ∧ e.task.schedule ≠ "" := by
  intro ts
  induction ts with
  | nil => intro e he; simp [addSchedules] at he
  | cons t ts ih =>
    intro e he
    simp only [addSchedules] at he
    by_cases hskip : (!isTaskEnabled t || t.schedule == "") = true
    · rw [if_pos hskip] at he
      exact ih e he
    · rw [if_neg hskip] at he
      simp only [Bool.or_eq_true, Bool.not_eq_eq_eq_not, Bool.not_true, beq_iff_eq,
        not_or] at hskip
      obtain ⟨hen, hsched⟩ := hskip
      by_cases hv : valid t.schedule = true
      · rw [if_pos hv] at he
        rcases List.mem_cons.mp he with h | h
        · subst h
          exact ⟨by simpa using hen, hsched⟩
        · exact ih e h
      · rw [if_neg hv] at he
        simp at he

/-- Claim C6: a task whose enabled flag resolves to `false` is never placed
into a schedule entry, never submitted as a run-on-start task in daemon
mode, and never submitted in run-once mode. -/
theorem disabled_task_never_run (valid : String → Bool) (acc : AccountConfig)
    (t : TaskConfig) (h : isTaskEnabled t = false) :
    (∀ e ∈ (registerAccount valid acc).entries, e.task ≠ t) ∧
      t ∉ (registerAccount valid acc).submittedOnStart ∧
      t ∉ onceSubmittedTasks acc := by
  refine ⟨?_, ?_, ?_⟩
  · intro e he heq
    have := (addSchedules_entries_enabled valid acc.tasks e he).1
    rw [heq, h] at this
    exact Bool.false_ne_true this
  · intro hmem
    have := List.of_mem_filter hmem
    simp only [Bool.and_eq_true] at this
    rw [h] at this
    exact Bool.false_ne_true this.1
  · intro hmem
    have := List.of_mem_filter hmem
    rw [h] at this
    exact Bool.false_ne_true this

/-- Witness for C6 at a concrete account: one disabled task alongside an
enabled scheduled one. -/
theorem disabled_task_never_run_witness :
    (∀ e ∈ (registerAccount (fun _ => true)
        { name := "acme", phone := "1", password := "", appID := 1, appHash := "h",
          workerCount := 0, taskQueueSize := 0, replyWaitSeconds := 0, replyHistoryLimit := 0,
          tasks := [{ name := "t1", target := "bot", method := "message", payload := "hi",
                      schedule := "@every 1h", enabled := some false, runOnStart := true,
                      replyWaitSeconds := 0, replyHistoryLimit := 0 }] }).entries,
        e.task ≠ { name := "t1", target := "bot", method := "message", payload := "hi",
                   schedule := "@every 1h", enabled := some false, runOnStart := true,
                   replyWaitSeconds := 0, replyHistoryLimit := 0 }) ∧
      { name := "t1", target := "bot", method := "message", payload := "hi",
        schedule := "@every 1h", enabled := some false, runOnStart := true,
        replyWaitSeconds := 0, replyHistoryLimit := 0 } ∉
        (registerAccount (fun _ => true)
        { name := "acme", phone := "1", password := "", appID := 1, appHash := "h",
          workerCount := 0, taskQueueSize := 0, replyWaitSeconds := 0, replyHistoryLimit := 0,
          tasks := [{ name := "t1", target := "bot", method := "message", payload := "hi",
                      schedule := "@every 1h", enabled := some false, runOnStart := true,
                      replyWaitSeconds := 0, replyHistoryLimit := 0 }] }).submittedOnStart ∧
      { name := "t1", target := "bot", method := "message", payload := "hi",
        schedule := "@every 1h", enabled := some false, runOnStart := true,
        replyWaitSeconds := 0, replyHistoryLimit := 0 } ∉ onceSubmittedTasks
        { name := "acme", phone := "1", password := "", appID := 1, appHash := "h",
          workerCount := 0, taskQueueSize := 0, replyWaitSeconds := 0, replyHistoryLimit := 0,
          tasks := [{ name := "t1", target := "bot", method := "message", payload := "hi",
                      schedule := "@every 1h", enabled := some false, runOnStart := true,
                      replyWaitSeconds := 0, replyHistoryLimit := 0 }] } :=
  disabled_task_never_run _ _ _ (by decide)

/-- A concrete stand-in for the external cron parser: accepts every
expression except the literal "not-a-cron". -/
def cronAccepts (s : String) : Bool := s != "not-a-cron"

/-- An enabled task with a malformed schedule expression. -/
def taskBadSchedule : TaskConfig :=
  { name := "t2", target := "bot", method := "message", payload := "hi",
    schedule := "not-a-cron", enabled := some true, runOnStart := false,
    replyWaitSeconds := 0, replyHistoryLimit := 0 }

/-- An enabled task with a well-formed schedule expression. -/
def taskGoodSchedule : TaskConfig :=
  { name := "t1", target := "bot", method := "message", payload := "hi",
    schedule := "0 8 * * *", enabled := some true, runOnStart := false,
    replyWaitSeconds := 0, replyHistoryLimit := 0 }

/-- Counterexample to C2 as stated: with a malformed schedule at position 1
and a well-formed enabled task at position 2, registration returns the
error from position 1 and produces no entry at all for the later task,
instead of skipping the bad entry and registering the rest. -/
theorem schedule_error_aborts_counterexample :
    isTaskEnabled taskGoodSchedule = true ∧
      cronAccepts taskGoodSchedule.schedule = true ∧
      taskGoodSchedule.schedule ≠ "" ∧
      addSchedules cronAccepts [taskBadSchedule, taskGoodSchedule] = ([], some "not-a-cron") := by
  refine ⟨rfl, by decide, by decide, ?_⟩
  decide

/-- Claim C2 as amended: when schedule registration encounters the first
malformed schedule expression at task `bad`, the loop returns that error
immediately: entries added for earlier tasks remain registered, but tasks
after `bad` in the same account are not registered at all (the session
function returns the error; other accounts, running their own loops, are
unaffected). -/
theorem addSchedules_aborts_at_first_invalid (valid : String → Bool)
    (pre post : List TaskConfig) (bad : TaskConfig)
    (hen : isTaskEnabled bad = true) (hs : bad.schedule ≠ "")
    (hinv : valid bad.schedule = false)
    (hpre : ∀ t ∈ pre, isTaskEnabled t = true → t.schedule ≠ "" → valid t.schedule = true) :
    addSchedules valid (pre ++ bad :: post) = ((addSchedules valid pre).1, some bad.schedule) := by
  induction pre with
  | nil =>
    simp [addSchedules, hen, hinv, beq_eq_false_iff_ne.mpr hs]
  | cons t pre ih =>
    by_cases hskip : (!isTaskEnabled t || t.schedule == "") = true
    · simp only [List.cons_append, addSchedules, if_pos hskip]
      exact ih (fun x hx h1 h2 => hpre x (List.mem_cons_of_mem t hx) h1 h2)
    · have hc : (!isTaskEnabled t || t.schedule == "") = false := by
        cases hb : (!isTaskEnabled t || t.schedule == "") with
        | false => rfl
        | true => exact absurd hb hskip
      have hen_t : isTaskEnabled t = true := by
        by_contra hne
        have hft : isTaskEnabled t = false := by
          cases hb : isTaskEnabled t with
          | false => rfl
          | true => exact absurd hb hne
        simp [hft] at hc
      have hsched_t : t.schedule ≠ "" := by
        intro heq
        simp [heq] at hc
      have hv : valid t.schedule = true :=
        hpre t (List.mem_cons_self t pre) hen_t hsched_t
      simp only [List.cons_append, addSchedules, hc, Bool.false_eq_true, if_false, hv, if_true,
        List.append_eq]
      rw [ih (fun x hx h1 h2 => hpre x (List.mem_cons_of_mem t hx) h1 h2)]

/-- Witness for the amended C2 at a concrete registration: a good task, the
bad task, then another good task; the first entry survives, the trailing
task is dropped, the error is returned. -/
theorem addSchedules_aborts_at_first_invalid_witness :
    addSchedules cronAccepts [taskGoodSchedule, taskBadSchedule, taskGoodSchedule] =
      ((addSchedules cronAccepts [taskGoodSchedule]).1, some taskBadSchedule.schedule) :=
  addSchedules_aborts_at_first_invalid cronAccepts [taskGoodSchedule] [taskGoodSchedule]
    taskBadSchedule (by decide) (by decide) (by decide) (by decide)

/-- Outcome of a task dispatch: the Messenger operation it resolves to.
The remote call itself is external; here dispatch selects the operation or
fails on an unknown method. -/
inductive TaskOutcome where
  | messageSent (target payload : String)
  | buttonClicked (target payload : String)
  deriving DecidableEq, Repr

/-- `executeTaskWithLogger` from `src/internal/executor/executor.go` lines
209-218: the `switch` on `task.Method` dispatches "message" and "button"
and otherwise returns the error built by `fmt.Errorf` with the offending
value quoted (`%q`), modelled with `reprStr`. -/
def executeTaskWithLogger (task : TaskConfig) : Except String TaskOutcome :=
  if task.method = "message" then .ok (.messageSent task.target task.payload)
  else if task.method = "button" then .ok (.buttonClicked task.target task.payload)
  else .error ("unknown method " ++ reprStr task.method)

/-- One worker's dequeue loop (`src/internal/executor/executor.go` lines
83-107 and 110-194): each dequeued request is executed; a failure is
logged, not re-raised, and the loop continues with the next request.  The
cancellation and closed-channel exits carry no task, so the processed
prefix under no cancellation is the whole queue. -/
def workerRun : List TaskRequest → List (TaskRequest × Except String TaskOutcome)
  | [] => []
  | req :: rest => (req, executeTaskWithLogger req.task) :: workerRun rest

/-- Claim C8: a task whose method is neither "message" nor "button" fails
with an error naming the offending method value, the failure affects only
that one execution, and the worker proceeds to the remaining queued
tasks. -/
theorem unknown_method_fails_only_that_task (pre post : List TaskRequest) (req : TaskRequest)
    (h1 : req.task.method ≠ "message") (h2 : req.task.method ≠ "button") :
    workerRun (pre ++ req :: post) =
      workerRun pre
        ++ (req, .error ("unknown method " ++ reprStr req.task.method)) :: workerRun post := by
  induction pre with
  | nil =>
    simp only [List.nil_append, workerRun, executeTaskWithLogger, if_neg h1, if_neg h2,
      List.cons.injEq, and_true]
  | cons r pre ih =>
    simp only [List.cons_append, workerRun, List.append_eq, ih]

/-- Witness for C8 at a concrete queue: a good message task before and
after a task with method "unknown". -/
theorem unknown_method_fails_only_that_task_witness :
    workerRun [⟨taskGoodSchedule, "scheduled", 0⟩,
               ⟨{ name := "x", target := "bot", method := "unknown", payload := "p",
                  schedule := "", enabled := none, runOnStart := false,
                  replyWaitSeconds := 0, replyHistoryLimit := 0 }, "scheduled", 0⟩,
               ⟨taskGoodSchedule, "scheduled", 0⟩] =
      workerRun [⟨taskGoodSchedule, "scheduled", 0⟩]
        ++ (⟨{ name := "x", target := "bot", method := "unknown", payload := "p",
               schedule := "", enabled := none, runOnStart := false,
               replyWaitSeconds := 0, replyHistoryLimit := 0 }, "scheduled", 0⟩,
            Except.error ("unknown method "
              ++ reprStr ({ name := "x", target := "bot", method := "unknown", payload := "p",
                            schedule := "", enabled := none, runOnStart := false,
                            replyWaitSeconds := 0,
                            replyHistoryLimit := 0 } : TaskConfig).method))
          :: workerRun [⟨taskGoodSchedule, "scheduled", 0⟩] :=
  unknown_method_fails_only_that_task [⟨taskGoodSchedule, "scheduled", 0⟩]
    [⟨taskGoodSchedule, "scheduled", 0⟩] _ (by decide) (by decide)

/-- Claim C9: the task-level merge is monotone in the run-on-start flag: an
override can set `run_on_start` but never unset it. -/
theorem mergeTask_runOnStart_monotone (base override : TaskConfig)
    (h : base.runOnStart = true) : (mergeTask base override).runOnStart = true := by
  simp [mergeTask, h]

/-- Witness for C9 at a concrete pair: base has the flag, override does
not; the merged task keeps it. -/
theorem mergeTask_runOnStart_monotone_witness :
    (mergeTask
      { name := "a", target := "x", method := "message", payload := "p", schedule := "",
        enabled := none, runOnStart := true, replyWaitSeconds := 0, replyHistoryLimit := 0 }
      { name := "b", target := "y", method := "button", payload := "q", schedule := "",
        enabled := none, runOnStart := false, replyWaitSeconds := 0,
        replyHistoryLimit := 0 }).runOnStart = true :=
  mergeTask_runOnStart_monotone _ _ (by decide)

/-- Claim C10: a nil pointer is an identity for `MergeConfig`: merging nil
with a config, in either order, returns that config and no error. -/
theorem mergeConfig_nil_identity (c : Config) :
    MergeConfig none (some c) = .ok (some c) ∧ MergeConfig (some c) none = .ok (some c) :=
  ⟨rfl, rfl⟩

theorem allAccountsNamed_iff (l : List AccountConfig) :
    allAccountsNamed l = true ↔ l ≠ [] ∧ ∀ a ∈ l, trimSpace a.name ≠ "" := by
  cases l <;> simp [allAccountsNamed, List.all_eq_true]

theorem mergeAccount_trim_name (base override : AccountConfig)
    (h : trimSpace override.name = trimSpace base.name) :
    trimSpace (mergeAccount base override).name = trimSpace base.name := by
  by_cases ho : override.name = ""
  · simp [mergeAccount, ho]
  · simp [mergeAccount, ho, h]

theorem mergeAccountsByName_names (base override : List AccountConfig) :
    (mergeAccountsByName base override).map (fun a => trimSpace a.name) =
      base.map (fun a => trimSpace a.name) ++
        (override.filter (fun a => !(base.any (fun b => trimSpace b.name == trimSpace a.name)))).map
          (fun a => trimSpace a.name) := by
  simp only [mergeAccountsByName, List.map_append, List.map_map]
  congr 1
  refine List.map_congr_left ?_
  intro a _
  simp only [Function.comp_apply]
  cases hl : lookupByName override (trimSpace a.name) with
  | none => rfl
  | some over =>
    simp only [lookupByName] at hl
    have hp := List.find?_some hl
    exact mergeAccount_trim_name a over (by simpa using hp)

/-- A concrete named account used in merge counterexamples. -/
def acctNamedB : AccountConfig :=
  { name := "acctB", phone := "", password := "", appID := 0, appHash := "",
    workerCount := 0, taskQueueSize := 0, replyWaitSeconds := 0, replyHistoryLimit := 0,
    tasks := [] }

/-- Counterexample to C3 as stated: with an empty base list and a single
named override account, every account in both lists (vacuously for the
base) has a non-blank name, yet the merge is not by name: the code treats
an empty list as not-all-named, falls back to the positional branch, and
fails on the length mismatch instead of appending the override-only
account. -/
theorem merge_by_name_empty_base_counterexample :
    (∀ a ∈ ([] : List AccountConfig), trimSpace a.name ≠ "") ∧
      (∀ a ∈ [acctNamedB], trimSpace a.name ≠ "") ∧
      ([acctNamedB] ≠ ([] : List AccountConfig)) ∧
      mergeAccounts [] [acctNamedB] =
        .error "accounts length mismatch: base=0 override=1" := by
  refine ⟨by simp, by decide, by decide, rfl⟩

/-- Claim C3 as amended: for override non-empty, if both lists are
non-empty and every account in both has a non-blank (after trimming) name,
the merge is by name, preserving base ordering and appending override-only
accounts at the end (stated on the trimmed-name sequences); otherwise the
merge is positional by index and fails with a config error exactly when the
two lengths differ. -/
theorem mergeAccounts_branch_spec (base override : List AccountConfig)
    (hov : override ≠ []) :
    mergeAccounts base override =
      (if base ≠ [] ∧ (∀ a ∈ base, trimSpace a.name ≠ "") ∧ (∀ a ∈ override, trimSpace a.name ≠ "") then
        .ok (mergeAccountsByName base override)
      else if base.length = override.length then
        .ok (mergeAccountsByIndex base override)
      else
        .error ("accounts length mismatch: base=" ++ toString base.length
          ++ " override=" ++ toString override.length)) ∧
      (mergeAccountsByName base override).map (fun a => trimSpace a.name) =
        base.map (fun a => trimSpace a.name) ++
          (override.filter (fun a => !(base.any (fun b => trimSpace b.name == trimSpace a.name)))).map
            (fun a => trimSpace a.name) := by
  have hne : override.isEmpty = false := by
    cases override with
    | nil => exact absurd rfl hov
    | cons a l => rfl
  refine ⟨?_, mergeAccountsByName_names base override⟩
  by_cases hc : base ≠ [] ∧ (∀ a ∈ base, trimSpace a.name ≠ "") ∧ (∀ a ∈ override, trimSpace a.name ≠ "")
  · have hb : allAccountsNamed base = true := (allAccountsNamed_iff base).mpr ⟨hc.1, hc.2.1⟩
    have ho2 : allAccountsNamed override = true :=
      (allAccountsNamed_iff override).mpr ⟨hov, hc.2.2⟩
    rw [if_pos hc]
    simp [mergeAccounts, hne, hb, ho2]
  · have hand : (allAccountsNamed base && allAccountsNamed override) = false := by
      cases hb : allAccountsNamed base with
      | false => rfl
      | true =>
        cases ho2 : allAccountsNamed override with
        | false => rfl
        | true =>
          obtain ⟨hb1, hb2⟩ := (allAccountsNamed_iff base).mp hb
          obtain ⟨_, ho3⟩ := (allAccountsNamed_iff override).mp ho2
          exact absurd ⟨hb1, hb2, ho3⟩ hc
    rw [if_neg hc]
    by_cases hl : base.length = override.length
    · rw [if_pos hl]
      simp [mergeAccounts, hne, hand, hl]
    · rw [if_neg hl]
      simp [mergeAccounts, hne, hand, hl]

/-- Witness for the amended C3 at concrete inputs: a named base and a named
override of different lengths merge by name. -/
theorem mergeAccounts_branch_spec_witness :
    mergeAccounts [{ acctNamedB with name := "acctA" }] [acctNamedB, { acctNamedB with name := "acctC" }] =
      (if ([{ acctNamedB with name := "acctA" }] : List AccountConfig) ≠ [] ∧
          (∀ a ∈ [{ acctNamedB with name := "acctA" }], trimSpace a.name ≠ "") ∧
          (∀ a ∈ [acctNamedB, { acctNamedB with name := "acctC" }], trimSpace a.name ≠ "") then
        .ok (mergeAccountsByName [{ acctNamedB with name := "acctA" }]
          [acctNamedB, { acctNamedB with name := "acctC" }])
      else if ([{ acctNamedB with name := "acctA" }] : List AccountConfig).length =
          [acctNamedB, { acctNamedB with name := "acctC" }].length then
        .ok (mergeAccountsByIndex [{ acctNamedB with name := "acctA" }]
          [acctNamedB, { acctNamedB with name := "acctC" }])
      else
        .error ("accounts length mismatch: base="
          ++ toString ([{ acctNamedB with name := "acctA" }] : List AccountConfig).length
          ++ " override=" ++ toString [acctNamedB, { acctNamedB with name := "acctC" }].length)) ∧
      (mergeAccountsByName [{ acctNamedB with name := "acctA" }]
          [acctNamedB, { acctNamedB with name := "acctC" }]).map (fun a => trimSpace a.name) =
        ([{ acctNamedB with name := "acctA" }] : List AccountConfig).map (fun a => trimSpace a.name) ++
          ([acctNamedB, { acctNamedB with name := "acctC" }].filter (fun a =>
            !(([{ acctNamedB with name := "acctA" }] : List AccountConfig).any
              (fun b => trimSpace b.name == trimSpace a.name)))).map (fun a => trimSpace a.name) :=
  mergeAccounts_branch_spec _ _ (by decide)

/-- A concrete base config for the sparse-override counterexample. -/
def cfgSparseBase : Config :=
  { accounts := [], proxy := "", appID := 1, appHash := "h", replyWaitSeconds := 3,
    replyHistoryLimit := 10, log := { dir := "", level := "", format := "" },
    language := "en" }

/-- A concrete override config carrying non-zero reply-wait and a non-empty
language that the merge nevertheless ignores. -/
def cfgSparseOverride : Config :=
  { accounts := [], proxy := "", appID := 0, appHash := "", replyWaitSeconds := 7,
    replyHistoryLimit := 0, log := { dir := "", level := "", format := "" },
    language := "zh" }

/-- Counterexample to C5 as stated: the override's `reply_wait_seconds` is
non-zero (7) and its `language` is non-empty ("zh"), yet the merged config
is exactly the base: `MergeConfig` never copies those scalar fields, so
the override does not win on them. -/
theorem sparse_override_counterexample :
    cfgSparseOverride.replyWaitSeconds ≠ 0 ∧
      cfgSparseOverride.language ≠ "" ∧
      cfgSparseOverride.replyWaitSeconds ≠ cfgSparseBase.replyWaitSeconds ∧
      cfgSparseOverride.language ≠ cfgSparseBase.language ∧
      MergeConfig (some cfgSparseBase) (some cfgSparseOverride) = .ok (some cfgSparseBase) := by
  refine ⟨by decide, by decide, by decide, by decide, rfl⟩

/-- Claim C5 as amended: sparse-override semantics (override wins iff
non-empty/non-zero) holds exactly for the scalar fields the merge copies:
proxy, app id and app hash at config level; name, phone, password, app id
and app hash at account level; target, method, payload and schedule at
task level.  Every other scalar field always retains the base value, even
when the override value is non-empty/non-zero: reply-wait, history-limit,
log and language at config level; worker count, queue size and the reply
fields at account level; name and the reply fields at task level. -/
theorem merge_sparse_fields (b o m : Config) (ba oa : AccountConfig) (bt ot : TaskConfig)
    (hm : MergeConfig (some b) (some o) = .ok (some m)) :
    ((m.proxy = if o.proxy ≠ "" then o.proxy else b.proxy) ∧
      (m.appID = if o.appID ≠ 0 then o.appID else b.appID) ∧
      (m.appHash = if o.appHash ≠ "" then o.appHash else b.appHash) ∧
      m.replyWaitSeconds = b.replyWaitSeconds ∧
      m.replyHistoryLimit = b.replyHistoryLimit ∧
      m.log = b.log ∧
      m.language = b.language) ∧
    (((mergeAccount ba oa).name = if oa.name ≠ "" then oa.name else ba.name) ∧
      ((mergeAccount ba oa).phone = if oa.phone ≠ "" then oa.phone else ba.phone) ∧
      ((mergeAccount ba oa).password = if oa.password ≠ "" then oa.password else ba.password) ∧
      ((mergeAccount ba oa).appID = if oa.appID ≠ 0 then oa.appID else ba.appID) ∧
      ((mergeAccount ba oa).appHash = if oa.appHash ≠ "" then oa.appHash else ba.appHash) ∧
      (mergeAccount ba oa).workerCount = ba.workerCount ∧
      (mergeAccount ba oa).taskQueueSize = ba.taskQueueSize ∧
      (mergeAccount ba oa).replyWaitSeconds = ba.replyWaitSeconds ∧
      (mergeAccount ba oa).replyHistoryLimit = ba.replyHistoryLimit) ∧
    (((mergeTask bt ot).target = if ot.target ≠ "" then ot.target else bt.target) ∧
      ((mergeTask bt ot).method = if ot.method ≠ "" then ot.method else bt.method) ∧
      ((mergeTask bt ot).payload = if ot.payload ≠ "" then ot.payload else bt.payload) ∧
      ((mergeTask bt ot).schedule = if ot.schedule ≠ "" then ot.schedule else bt.schedule) ∧
      (mergeTask bt ot).name = bt.name ∧
      (mergeTask bt ot).replyWaitSeconds = bt.replyWaitSeconds ∧
      (mergeTask bt ot).replyHistoryLimit = bt.replyHistoryLimit) := by
  refine ⟨?_, by simp [mergeAccount], by simp [mergeTask]⟩
  simp only [MergeConfig] at hm
  by_cases he : o.accounts.isEmpty = true
  · rw [if_pos he] at hm
    simp only [Except.ok.injEq, Option.some.injEq] at hm
    subst hm
    simp
  · rw [if_neg he] at hm
    cases hacc : mergeAccounts b.accounts o.accounts with
    | error e =>
      rw [hacc] at hm
      simp at hm
    | ok accounts =>
      rw [hacc] at hm
      simp only [Except.ok.injEq, Option.some.injEq] at hm
      subst hm
      simp

/-- Witness for the amended C5 at concrete configs, accounts and tasks. -/
theorem merge_sparse_fields_witness :
    ((cfgSparseBase.proxy =
        if cfgSparseOverride.proxy ≠ "" then cfgSparseOverride.proxy else cfgSparseBase.proxy) ∧
      (cfgSparseBase.appID =
        if cfgSparseOverride.appID ≠ 0 then cfgSparseOverride.appID else cfgSparseBase.appID) ∧
      (cfgSparseBase.appHash =
        if cfgSparseOverride.appHash ≠ "" then cfgSparseOverride.appHash
        else cfgSparseBase.appHash) ∧
      cfgSparseBase.replyWaitSeconds = cfgSparseBase.replyWaitSeconds ∧
      cfgSparseBase.replyHistoryLimit = cfgSparseBase.replyHistoryLimit ∧
      cfgSparseBase.log = cfgSparseBase.log ∧
      cfgSparseBase.language = cfgSparseBase.language) ∧
    (((mergeAccount acctNamedB { acctNamedB with name := "acctC" }).name =
        if ({ acctNamedB with name := "acctC" } : AccountConfig).name ≠ ""
        then ({ acctNamedB with name := "acctC" } : AccountConfig).name
        else acctNamedB.name) ∧
      ((mergeAccount acctNamedB { acctNamedB with name := "acctC" }).phone =
        if ({ acctNamedB with name := "acctC" } : AccountConfig).phone ≠ ""
        then ({ acctNamedB with name := "acctC" } : AccountConfig).phone
        else acctNamedB.phone) ∧
      ((mergeAccount acctNamedB { acctNamedB with name := "acctC" }).password =
        if ({ acctNamedB with name := "acctC" } : AccountConfig).password ≠ ""
        then ({ acctNamedB with name := "acctC" } : AccountConfig).password
        else acctNamedB.password) ∧
      ((mergeAccount acctNamedB { acctNamedB with name := "acctC" }).appID =
        if ({ acctNamedB with name := "acctC" } : AccountConfig).appID ≠ 0
        then ({ acctNamedB with name := "acctC" } : AccountConfig).appID
        else acctNamedB.appID) ∧
      ((mergeAccount acctNamedB { acctNamedB with name := "acctC" }).appHash =
        if ({ acctNamedB with name := "acctC" } : AccountConfig).appHash ≠ ""
        then ({ acctNamedB with name := "acctC" } : AccountConfig).appHash
        else acctNamedB.appHash) ∧
      (mergeAccount acctNamedB { acctNamedB with name := "acctC" }).workerCount =
        acctNamedB.workerCount ∧
      (mergeAccount acctNamedB { acctNamedB with name := "acctC" }).taskQueueSize =
        acctNamedB.taskQueueSize ∧
      (mergeAccount acctNamedB { acctNamedB with name := "acctC" }).replyWaitSeconds =
        acctNamedB.replyWaitSeconds ∧
      (mergeAccount acctNamedB { acctNamedB with name := "acctC" }).replyHistoryLimit =
        acctNamedB.replyHistoryLimit) ∧
    (((mergeTask taskGoodSchedule taskBadSchedule).target =
        if taskBadSchedule.target ≠ "" then taskBadSchedule.target
        else taskGoodSchedule.target) ∧
      ((mergeTask taskGoodSchedule taskBadSchedule).method =
        if taskBadSchedule.method ≠ "" then taskBadSchedule.method
        else taskGoodSchedule.method) ∧
      ((mergeTask taskGoodSchedule taskBadSchedule).payload =
        if taskBadSchedule.payload ≠ "" then taskBadSchedule.payload
        else taskGoodSchedule.payload) ∧
      ((mergeTask taskGoodSchedule taskBadSchedule).schedule =
        if taskBadSchedule.schedule ≠ "" then taskBadSchedule.schedule
        else taskGoodSchedule.schedule) ∧
      (mergeTask taskGoodSchedule taskBadSchedule).name = taskGoodSchedule.name ∧
      (mergeTask taskGoodSchedule taskBadSchedule).replyWaitSeconds =
        taskGoodSchedule.replyWaitSeconds ∧
      (mergeTask taskGoodSchedule taskBadSchedule).replyHistoryLimit =
        taskGoodSchedule.replyHistoryLimit) :=
  merge_sparse_fields cfgSparseBase cfgSparseOverride cfgSparseBase acctNamedB
    { acctNamedB with name := "acctC" } taskGoodSchedule taskBadSchedule rfl

end Checkin
